import Mathlib

/-!
Shallow embedding of pkg/nvkind/cluster.go (NVIDIA/nvkind).

The repository wraps the external provisioning tool (the kind CLI) and a
remote configuration record stored in a Kubernetes ConfigMap.  The pure
logic embedded here is:

* the node-topology resolution core of (Cluster).GetNodes
  (src/pkg/nvkind/cluster.go lines 189-250): sorting live node names,
  classifying them by role suffix, grouping declared nodes by role,
  and positionally pairing the two;
* the config reconciliation of (ClusterOptions).setConfig and NewCluster
  (lines 68-95 and 252-292);
* the create-then-record sequencing of (Cluster).Create (lines 97-134)
  with the ConfigMap write addConfigBytesToExistingCluster (lines 294-326)
  and read getConfigBytesFromExistingCluster (lines 328-348).

External effects (child processes, the Kubernetes API) are passed in as
explicit inputs: the list of existing cluster names is the parsed output of
the kind CLI query, the store is the per-identity ConfigMap record, and
each fallible remote call is an explicit result parameter.  Go strings are
Lean Strings (for valid UTF-8, Go byte-wise comparison agrees with
code-point comparison); Go errors built with fmt.Errorf are the GoErr
tree below.
-/

/-- Model of a Go error value.  GoErr.msg models errors.New / fmt.Errorf
with no wrap verb, GoErr.wrap ctx cause models fmt.Errorf with a context
string and a wrapped cause, and GoErr.wrapNil ctx models fmt.Errorf
applied with the wrap verb to a nil error, which Go permits: the
formatted message notes the nil and no cause is carried. -/
inductive GoErr where
  | msg : String → GoErr
  | wrap : String → GoErr → GoErr
  | wrapNil : String → GoErr
deriving DecidableEq, Repr

/-- One entry of kind.Cluster.Nodes (sigs.k8s.io/kind v1alpha4 Node).
role embeds the Role field (a string in the source; the fixed tokens are
control-plane and worker); extra stands for the remaining per-node fields
(image, labels, extraMounts, ...), which the embedded logic only copies
and compares, never inspects. -/
structure KindNode where
  role : String
  extra : String
deriving DecidableEq, Repr

/-- kind.Cluster (sigs.k8s.io/kind v1alpha4 Cluster): the name field, the
ordered node declarations, and extra for the remaining cluster-level
fields (TypeMeta, networking, feature gates, ...), which the embedded
logic only copies and compares, never inspects.  reflect.DeepEqual on two
pointers to this struct is structural equality of the values, i.e. Eq. -/
structure KindCluster where
  name : String
  nodes : List KindNode
  extra : String
deriving DecidableEq, Repr

/-- Serialized YAML text of a KindCluster, as held in the ConfigMap.
Decoding is total on the texts this system ever stores, and discards
presentation detail (field order, explicit defaults, whitespace); rep
stands for exactly that discarded presentation detail, so two ConfigBytes
with the same value and different rep model two different byte strings
that decode to the same document. -/
structure ConfigBytes where
  value : KindCluster
  rep : Nat
deriving DecidableEq, Repr

/-- yaml.Unmarshal of stored config bytes into a kind.Cluster
(src/pkg/nvkind/cluster.go line 274). -/
def yamlUnmarshalCluster (b : ConfigBytes) : KindCluster := b.value

/-- yaml.Marshal of a kind.Cluster (line 115); produces the canonical
presentation. -/
def yamlMarshalCluster (c : KindCluster) : ConfigBytes := ⟨c, 0⟩

/-- kind.ControlPlaneRole. -/
def controlPlaneRole : String := "control-plane"

/-- kind.WorkerRole. -/
def workerRole : String := "worker"

/-- Boolean test that pat is an initial segment of l; helper for the
suffix test below. -/
def leadMatch : List Char → List Char → Bool
  | [], _ => true
  | _ :: _, [] => false
  | a :: as, b :: bs => a == b && leadMatch as bs

/-- strings.HasSuffix s t (line 207, 211): byte-suffix test, expressed on
the reversed character lists. -/
def goHasSuffix (s t : String) : Bool :=
  leadMatch t.toList.reverse s.toList.reverse

/-- strings.TrimRightFunc node unicode.IsDigit (line 206): drop the
maximal trailing run of decimal digits.  (The node names at issue are
ASCII, where unicode.IsDigit agrees with Char.isDigit.) -/
def trimRightDigits (s : String) : String :=
  ⟨(s.toList.reverse.dropWhile Char.isDigit).reverse⟩

/-- The role classification applied to each live node name in the loop at
lines 205-216: trim trailing digits, then test the control-plane suffix,
then the worker suffix; none models the unable-to-determine-role case. -/
def classifyRole (node : String) : Option String :=
  let trimmed := trimRightDigits node
  if goHasSuffix trimmed controlPlaneRole then some controlPlaneRole
  else if goHasSuffix trimmed workerRole then some workerRole
  else none

/-- The error built at line 215. -/
def unknownRoleErr (node : String) : GoErr :=
  .msg ("unable to determine node role from name: " ++ node)

/-- The loop at lines 204-216: walk the (sorted) name list, appending each
name to its role group, failing on the first name whose role cannot be
determined.  Returns the control-plane group and the worker group, each in
scan order. -/
def groupNodeNames : List String → Except GoErr (List String × List String)
  | [] => .ok ([], [])
  | n :: rest =>
    match classifyRole n with
    | none => .error (unknownRoleErr n)
    | some r =>
      match groupNodeNames rest with
      | .error e => .error e
      | .ok (cps, ws) =>
        if r = controlPlaneRole then .ok (n :: cps, ws) else .ok (cps, n :: ws)

/-- The loop at lines 218-229: partition the declared nodes by role,
preserving declaration order, failing on a declared role that is neither
control-plane nor worker (error at line 228). -/
def groupNodeConfigs : List KindNode → Except GoErr (List KindNode × List KindNode)
  | [] => .ok ([], [])
  | node :: rest =>
    if node.role = controlPlaneRole then
      match groupNodeConfigs rest with
      | .error e => .error e
      | .ok (cps, ws) => .ok (node :: cps, ws)
    else if node.role = workerRole then
      match groupNodeConfigs rest with
      | .error e => .error e
      | .ok (cps, ws) => .ok (cps, node :: ws)
    else .error (.msg ("unknown node role: " ++ node.role))

/-- Byte-wise (here: code-point-wise) lexicographic comparison, the order
used by Go sort.Strings. -/
def charListLe : List Char → List Char → Bool
  | [], _ => true
  | _ :: _, [] => false
  | a :: as, b :: bs => if a < b then true else if b < a then false else charListLe as bs

/-- String comparison underlying sort.Strings (line 202). -/
def strLe (a b : String) : Bool := charListLe a.toList b.toList

/-- Insert into a sorted list, keeping strLe order. -/
def insertStr (x : String) : List String → List String
  | [] => [x]
  | y :: ys => if strLe x y then x :: y :: ys else y :: insertStr x ys

/-- sort.Strings (line 202): lexicographic ascending sort of the live node
names, modelled by insertion sort. -/
def sortStrings (l : List String) : List String := l.foldr insertStr []

/-- (*kind.Node).DeepCopy (line 240).  On the pure value this is the
identity; calling it is what gives each resolved node a private copy of
its declaration. -/
def deepCopyNode (n : KindNode) : KindNode := n

/-- nvkind Node (the resolved node struct built at lines 238-244): the
live name paired with its declaration.  The nvml / stdout / stderr
execution-context fields carried from the cluster are plumbing and are
omitted. -/
structure Node where
  Name : String
  config : KindNode
deriving DecidableEq, Repr

/-- The error built at line 234. -/
def mismatchErr (role : String) : GoErr :=
  .msg ("node names and configs mismatch for " ++ role ++ " role")

/-- The pure node-resolution core of (Cluster).GetNodes (lines 201-249).
liveNames is the whitespace-split output of the kind get nodes command
(line 201); declaredNodes is c.config.Nodes.  Sort the live names, group
them by inferred role, group the declarations by declared role, then for
control-plane and worker in that order require equal counts and pair
positionally, emitting the control-plane pairs before the worker pairs. -/
def getNodes (liveNames : List String) (declaredNodes : List KindNode) :
    Except GoErr (List Node) :=
  match groupNodeNames (sortStrings liveNames) with
  | .error e => .error e
  | .ok (cpNames, wNames) =>
    match groupNodeConfigs declaredNodes with
    | .error e => .error e
    | .ok (cpCfgs, wCfgs) =>
      if cpNames.length ≠ cpCfgs.length then .error (mismatchErr controlPlaneRole)
      else if wNames.length ≠ wCfgs.length then .error (mismatchErr workerRole)
      else
        .ok (List.zipWith (fun n d => { Name := n, config := deepCopyNode d }) cpNames cpCfgs
          ++ List.zipWith (fun n d => { Name := n, config := deepCopyNode d }) wNames wCfgs)

/-- The remote config record: one ConfigMap entry per cluster identity
(the well-known record nvkind-cluster-config in the default namespace of
that cluster).  read models getConfigBytesFromExistingCluster succeeding
with the decoded bytes; none models the record being absent. -/
structure Store where
  entries : List (String × ConfigBytes)
deriving DecidableEq, Repr

/-- Fetch the stored config bytes for an identity. -/
def Store.read (s : Store) (name : String) : Option ConfigBytes :=
  s.entries.lookup name

/-- Record the config bytes for an identity (the ConfigMap create). -/
def Store.write (s : Store) (name : String) (b : ConfigBytes) : Store :=
  ⟨(name, b) :: s.entries⟩

/-- Modelled from the spec: NewConfig (pkg/nvkind/config.go, not under
src/).  With a WithConfigTemplate option built from the stored bytes it
adopts the decoded stored configuration (spec 4.2 row: existing cluster,
no caller config, stored config available -> adopt stored config); with
no supplied config and no template there is nothing to create and it
fails (spec 4.2 row: no existing cluster, no caller config -> fail). -/
def newConfig (template : Option ConfigBytes) : Except GoErr KindCluster :=
  match template with
  | some b => .ok (yamlUnmarshalCluster b)
  | none => .error (.msg "nothing to create: no config supplied")

/-- The name normalization at lines 258-260: when a cluster name was
requested and a config was supplied, force the config's name field to the
requested name before anything else looks at the config. -/
def normalizeSupplied (name : String) (config : Option KindCluster) :
    Option KindCluster :=
  if name ≠ "" then config.map (fun c => { c with name := name }) else config

/-- (ClusterOptions).setConfig (lines 252-292).  existingClusters is the
successfully parsed output of GetClusterNames (the kind CLI query); store
is the remote config record.  Returns the effective config o.config
together with the store, which this function never writes:

* requested name not among existing clusters and a config supplied:
  adopt the (name-normalized) supplied config (early return, line 263);
* existing cluster and a config supplied: decode the stored bytes and
  compare with reflect.DeepEqual (line 277); equal means keep the
  caller's config, different is the conflict error of line 278;
* existing cluster, no config supplied: build the config from the stored
  bytes via NewConfig with WithConfigTemplate (lines 282-289);
* no existing cluster, no config supplied: NewConfig with no options.

A missing store record surfaces as the wrapped error of line 270. -/
def setConfig (existingClusters : List String) (store : Store) (name : String)
    (config0 : Option KindCluster) : Except GoErr KindCluster × Store :=
  match normalizeSupplied name config0 with
  | some c =>
    if existingClusters.contains name then
      match store.read name with
      | none =>
        (.error (.wrap "getting config bytes"
          (.wrap "getting configmap" (.msg "not found"))), store)
      | some stored =>
        if yamlUnmarshalCluster stored = c then (.ok c, store)
        else (.error (.msg "cannot pass new config to existing cluster"), store)
    else (.ok c, store)
  | none =>
    if existingClusters.contains name then
      match store.read name with
      | none =>
        (.error (.wrap "getting config bytes"
          (.wrap "getting configmap" (.msg "not found"))), store)
      | some stored =>
        match newConfig (some stored) with
        | .ok c => (.ok c, store)
        | .error e => (.error (.wrap "creating new config" e), store)
    else
      match newConfig none with
      | .ok c => (.ok c, store)
      | .error e => (.error (.wrap "creating new config" e), store)

/-- The cluster handle built by NewCluster (lines 85-92).  The
kubeconfig / nvml / stdout / stderr fields are execution-context plumbing
and are omitted. -/
structure Cluster where
  Name : String
  config : KindCluster
deriving DecidableEq, Repr

/-- NewCluster (lines 68-95): run setConfig, wrapping its failure (line
74); when no name was requested, take the name from the effective config
(lines 76-78). -/
def NewCluster (existingClusters : List String) (store : Store) (name : String)
    (config : Option KindCluster) : Except GoErr Cluster × Store :=
  match setConfig existingClusters store name config with
  | (.error e, s) => (.error (.wrap "setting config" e), s)
  | (.ok cfg, s) =>
    let n := if name = "" then cfg.name else name
    (.ok { Name := n, config := cfg }, s)

/-- The remote-call outcomes addConfigBytesToExistingCluster (lines
294-326) depends on: loading the client config (line 298), building the
clientset (line 303), and the ConfigMap create as left after
retry.RetryOnConflict, i.e. the final retryErr of line 317 (the bounded
optimistic-conflict retry is internal to the store client; what the
function observes is its final result). -/
structure AddConfigEnv where
  clientConfigErr : Option GoErr
  clientsetErr : Option GoErr
  createErr : Option GoErr
deriving DecidableEq, Repr

/-- addConfigBytesToExistingCluster (lines 294-326): write the config
bytes under the well-known record for the named cluster.  Note the source
detail at line 322 embedded faithfully: when retryErr is non-nil the
function returns fmt.Errorf with the wrap verb applied to the outer
variable err — which is nil at that point, since the closure at line 318
shadowed it — so the returned error is GoErr.wrapNil and the store
failure retryErr is not carried. -/
def addConfigBytesToExistingCluster (env : AddConfigEnv) (name : String)
    (configBytes : ConfigBytes) (store : Store) : Except GoErr Unit × Store :=
  match env.clientConfigErr with
  | some e => (.error (.wrap "loading client config" e), store)
  | none =>
  match env.clientsetErr with
  | some e => (.error (.wrap "creating clientset" e), store)
  | none =>
  match env.createErr with
  | some _ => (.error (.wrapNil "writing configmap"), store)
  | none => (.ok (), store.write name configBytes)

/-- (Cluster).Create (lines 97-134).  provision is the exit outcome of
the kind create cluster command (line 125), which consumes the marshaled
config on stdin; the retain / wait options only extend that command line
and are omitted.  Only after the command succeeds is the config recorded
via addConfigBytesToExistingCluster (line 129), whose failure is wrapped
(line 130). -/
def Cluster.Create (c : Cluster) (provision : Except GoErr Unit)
    (env : AddConfigEnv) (store : Store) : Except GoErr Unit × Store :=
  let configBytes := yamlMarshalCluster c.config
  match provision with
  | .error e => (.error (.wrap "executing command" e), store)
  | .ok _ =>
    match addConfigBytesToExistingCluster env c.Name configBytes store with
    | (.error e, s) => (.error (.wrap "adding config to cluster" e), s)
    | (.ok _, s) => (.ok (), s)

/-- getConfigBytesFromExistingCluster (lines 328-348) at the raw
ConfigMap level, for the read path: the Data field of the fetched
ConfigMap is a Go map from string keys to string values, modelled as an
association list; the function returns Data applied to the key config
(line 347), and a Go map lookup on a missing key yields the zero value,
the empty string. -/
def getConfigBytesFromExistingCluster (clientConfigErr clientsetErr : Option GoErr)
    (getResult : Except GoErr (List (String × String))) : Except GoErr String :=
  match clientConfigErr with
  | some e => .error (.wrap "loading client config" e)
  | none =>
  match clientsetErr with
  | some e => .error (.wrap "creating clientset" e)
  | none =>
  match getResult with
  | .error e => .error (.wrap "getting configmap" e)
  | .ok data => .ok ((data.lookup "config").getD "")

/-- Declared node list for the C2 scenario: one control-plane declaration
and two worker declarations, distinguishable by their extra fields. -/
def c2DeclaredNodes : List KindNode :=
  [⟨"control-plane", "cp0"⟩, ⟨"worker", "wA"⟩, ⟨"worker", "wB"⟩]

/-- Store for the C1 counterexample: cluster foo has a recorded config
whose decoded value carries the identity as its name. -/
def storeC1 : Store :=
  ⟨[("foo", ⟨⟨"foo", [⟨"control-plane", ""⟩], "x"⟩, 0⟩)]⟩

/-! ## Helper lemmas -/

theorem mem_insertStr (x y : String) (l : List String) :
    y ∈ insertStr x l ↔ y = x ∨ y ∈ l := by
  induction l with
  | nil => simp [insertStr]
  | cons a as ih =>
    simp only [insertStr]
    by_cases h : strLe x a = true
    · simp only [if_pos h, List.mem_cons]
    · simp only [if_neg h, List.mem_cons, ih]
      tauto

theorem mem_sortStrings (x : String) (l : List String) :
    x ∈ sortStrings l ↔ x ∈ l := by
  induction l with
  | nil => simp [sortStrings]
  | cons a as ih =>
    show x ∈ insertStr a (sortStrings as) ↔ _
    rw [mem_insertStr]
    simp [ih]

theorem groupNodeNames_error_of_unclassified (l : List String)
    (hex : ∃ n ∈ l, classifyRole n = none) :
    ∃ bad ∈ l, classifyRole bad = none ∧
      groupNodeNames l = .error (unknownRoleErr bad) := by
  induction l with
  | nil => obtain ⟨n, hn, -⟩ := hex; cases hn
  | cons a as ih =>
    obtain ⟨n, hn, hcn⟩ := hex
    cases hca : classifyRole a with
    | none =>
      exact ⟨a, List.mem_cons_self a as, hca, by simp [groupNodeNames, hca]⟩
    | some r =>
      have hmem : n ∈ as := by
        rcases List.mem_cons.mp hn with h | h
        · rw [h, hca] at hcn; cases hcn
        · exact h
      obtain ⟨bad, hbad, hbc, heq⟩ := ih ⟨n, hmem, hcn⟩
      exact ⟨bad, List.mem_cons_of_mem _ hbad, hbc,
        by simp [groupNodeNames, hca, heq]⟩

theorem leadMatch_head (a : Char) (as l : List Char)
    (h : leadMatch (a :: as) l = true) : l.head? = some a := by
  cases l with
  | nil => simp [leadMatch] at h
  | cons b bs =>
    simp only [leadMatch, Bool.and_eq_true, beq_iff_eq] at h
    simp [h.1]

theorem suffix_exclusive (s : String)
    (h1 : goHasSuffix s controlPlaneRole = true) :
    goHasSuffix s workerRole = false := by
  by_contra h2
  rw [Bool.not_eq_false] at h2
  unfold goHasSuffix at h1 h2
  have e1 : controlPlaneRole.toList.reverse = 'e' :: "nalp-lortnoc".toList := by decide
  have e2 : workerRole.toList.reverse = 'r' :: "ekrow".toList := by decide
  rw [e1] at h1
  rw [e2] at h2
  have g1 := leadMatch_head _ _ _ h1
  have g2 := leadMatch_head _ _ _ h2
  rw [g1] at g2
  exact absurd g2 (by decide)

/-! ## Claim theorems -/

/-- C2 counterexample.  The claim's literal live names carry no role
token: after stripping the trailing digit, "cp-1" becomes "cp-", which
ends in neither "control-plane" nor "worker", so resolution fails with
the unknown-role error on the first sorted name instead of returning the
three ResolvedNode entries the claim describes. -/
theorem getNodes_c2_literal_names_fail :
    getNodes ["w-1", "cp-1", "w-0"] c2DeclaredNodes =
      .error (unknownRoleErr "cp-1") := rfl

/-- C2 (amended).  With live names that do carry the role tokens —
["worker1", "control-plane1", "worker0"] — and declared nodes
[control-plane, worker, worker], resolution sorts the live names to
["control-plane1", "worker0", "worker1"], pairs control-plane1 with the
single control-plane declaration and worker0, worker1 in that order with
the two worker declarations in that order, and returns exactly three
resolved nodes with the control-plane entry first. -/
theorem getNodes_role_token_scenario :
    getNodes ["worker1", "control-plane1", "worker0"] c2DeclaredNodes =
      .ok [⟨"control-plane1", ⟨"control-plane", "cp0"⟩⟩,
           ⟨"worker0", ⟨"worker", "wA"⟩⟩,
           ⟨"worker1", ⟨"worker", "wB"⟩⟩] := rfl

/-- C4.  Role inference strips the maximal trailing digit run and
classifies by suffix against the fixed tokens.  First conjunct: the two
suffix tests are mutually exclusive, so an accepted name gets exactly one
role.  Second conjunct: whenever some live name classifies to no role,
resolution fails with the unknown-node-role error naming an unclassifiable
live name. -/
theorem roleInference_total_and_exclusive :
    (∀ s : String, goHasSuffix s controlPlaneRole = true →
      goHasSuffix s workerRole = false) ∧
    ∀ (liveNames : List String) (declaredNodes : List KindNode),
      (∃ n ∈ liveNames, classifyRole n = none) →
      ∃ bad ∈ liveNames, classifyRole bad = none ∧
        getNodes liveNames declaredNodes = .error (unknownRoleErr bad) := by
  constructor
  · exact suffix_exclusive
  · rintro live decl ⟨n, hn, hcn⟩
    obtain ⟨bad, hbad, hbc, heq⟩ := groupNodeNames_error_of_unclassified
      (sortStrings live) ⟨n, (mem_sortStrings n live).mpr hn, hcn⟩
    exact ⟨bad, (mem_sortStrings bad live).mp hbad, hbc, by simp [getNodes, heq]⟩

/-- Witness for C4 at the spec's concrete scenario: the digit-stripped
form of "xyz-2" matches neither role token, so resolution fails naming
it. -/
theorem roleInference_total_and_exclusive_witness :
    getNodes ["xyz-2"] c2DeclaredNodes = .error (unknownRoleErr "xyz-2") := by
  obtain ⟨bad, hbad, -, heq⟩ :=
    roleInference_total_and_exclusive.2 ["xyz-2"] c2DeclaredNodes
      ⟨"xyz-2", by decide, rfl⟩
  have hb : bad = "xyz-2" := by simpa using hbad
  rw [hb] at heq
  exact heq

/-- C5.  For the roles in the fixed priority order (control-plane, then
worker), a count mismatch between the live names of a role and the
declared nodes of that role fails with the mismatch error naming that
role; and a role with zero live names and zero declarations is simply
absent from the output, the remaining role being paired in full (neither
truncated nor padded). -/
theorem getNodes_topology_mismatch :
    (∀ (live : List String) (decl : List KindNode) cpN wN cpC wC,
      groupNodeNames (sortStrings live) = .ok (cpN, wN) →
      groupNodeConfigs decl = .ok (cpC, wC) →
      cpN.length ≠ cpC.length →
      getNodes live decl = .error (mismatchErr controlPlaneRole)) ∧
    (∀ (live : List String) (decl : List KindNode) cpN wN cpC wC,
      groupNodeNames (sortStrings live) = .ok (cpN, wN) →
      groupNodeConfigs decl = .ok (cpC, wC) →
      cpN.length = cpC.length →
      wN.length ≠ wC.length →
      getNodes live decl = .error (mismatchErr workerRole)) ∧
    (∀ (live : List String) (decl : List KindNode) wN wC,
      groupNodeNames (sortStrings live) = .ok ([], wN) →
      groupNodeConfigs decl = .ok ([], wC) →
      wN.length = wC.length →
      getNodes live decl =
        .ok (List.zipWith (fun n d => { Name := n, config := deepCopyNode d }) wN wC)) := by
  refine ⟨?_, ?_, ?_⟩
  · intro live decl cpN wN cpC wC h1 h2 h3
    simp [getNodes, h1, h2, h3]
  · intro live decl cpN wN cpC wC h1 h2 h3 h4
    simp [getNodes, h1, h2, h3, h4]
  · intro live decl wN wC h1 h2 h3
    simp [getNodes, h1, h2, h3]

/-- Witness for C5 at the spec's concrete scenario: two live worker nodes
against one declared worker node fails naming the worker role. -/
theorem getNodes_topology_mismatch_witness :
    getNodes ["demo-worker", "demo-worker2"] [⟨"worker", ""⟩] =
      .error (mismatchErr workerRole) :=
  getNodes_topology_mismatch.2.1 ["demo-worker", "demo-worker2"] [⟨"worker", ""⟩]
    [] ["demo-worker", "demo-worker2"] [] [⟨"worker", ""⟩] rfl rfl rfl (by decide)

/-- C6.  When every per-role count matches, resolution pairs the i-th
lexicographically sorted live name of each role with the i-th declared
node of that role in declaration order, emits the control-plane group
before the worker group, and each resolved node carries the DeepCopy of
its paired declaration — a private value snapshot, so later mutation of
the cluster-level configuration cannot alter it. -/
theorem getNodes_positional_pairing
    (live : List String) (decl : List KindNode)
    (cpN wN : List String) (cpC wC : List KindNode)
    (h1 : groupNodeNames (sortStrings live) = .ok (cpN, wN))
    (h2 : groupNodeConfigs decl = .ok (cpC, wC))
    (hcp : cpN.length = cpC.length) (hw : wN.length = wC.length) :
    ∃ nodes, getNodes live decl = .ok nodes ∧
      nodes.length = cpN.length + wN.length ∧
      (∀ i (hicp : i < cpN.length) (hicc : i < cpC.length) (hin : i < nodes.length),
        nodes[i] = { Name := cpN[i], config := deepCopyNode cpC[i] }) ∧
      (∀ j (hjw : j < wN.length) (hjc : j < wC.length)
        (hjn : cpN.length + j < nodes.length),
        nodes[cpN.length + j] = { Name := wN[j], config := deepCopyNode wC[j] }) := by
  have hres : getNodes live decl = .ok
      (List.zipWith (fun n d => { Name := n, config := deepCopyNode d }) cpN cpC ++
        List.zipWith (fun n d => { Name := n, config := deepCopyNode d }) wN wC) := by
    simp [getNodes, h1, h2, hcp, hw]
  refine ⟨_, hres, ?_, ?_, ?_⟩
  · simp [List.length_zipWith, hcp, hw]
  · intro i hicp hicc hin
    have hiz : i <
        (List.zipWith (fun n d => ({ Name := n, config := deepCopyNode d } : Node))
          cpN cpC).length := by
      simp [List.length_zipWith]; omega
    rw [List.getElem_append_left hiz]
    simp [List.getElem_zipWith]
  · intro j hjw hjc hjn
    have hlen : (List.zipWith (fun n d => ({ Name := n, config := deepCopyNode d } : Node))
        cpN cpC).length = cpN.length := by
      simp [List.length_zipWith]; omega
    have hge : (List.zipWith (fun n d => ({ Name := n, config := deepCopyNode d } : Node))
        cpN cpC).length ≤ cpN.length + j := by omega
    rw [List.getElem_append_right hge]
    have hidx : cpN.length + j -
        (List.zipWith (fun n d => ({ Name := n, config := deepCopyNode d } : Node))
          cpN cpC).length = j := by omega
    simp only [hidx, List.getElem_zipWith]

/-- Witness for C6 at a concrete topology: one control-plane and two
worker declarations, live names reported out of order. -/
theorem getNodes_positional_pairing_witness :
    ∃ nodes,
      getNodes ["kind-worker", "kind-control-plane", "kind-worker2"]
          [⟨"control-plane", "cp"⟩, ⟨"worker", "w1"⟩, ⟨"worker", "w2"⟩] = .ok nodes ∧
      nodes.length = ["kind-control-plane"].length +
        ["kind-worker", "kind-worker2"].length ∧
      (∀ i (_hicp : i < ["kind-control-plane"].length)
        (hicc : i < [(⟨"control-plane", "cp"⟩ : KindNode)].length)
        (hin : i < nodes.length),
        nodes[i] = { Name := ["kind-control-plane"][i],
                     config := deepCopyNode [(⟨"control-plane", "cp"⟩ : KindNode)][i] }) ∧
      (∀ j (_hjw : j < ["kind-worker", "kind-worker2"].length)
        (hjc : j < [(⟨"worker", "w1"⟩ : KindNode), ⟨"worker", "w2"⟩].length)
        (hjn : ["kind-control-plane"].length + j < nodes.length),
        nodes[["kind-control-plane"].length + j] =
          { Name := ["kind-worker", "kind-worker2"][j],
            config := deepCopyNode [(⟨"worker", "w1"⟩ : KindNode), ⟨"worker", "w2"⟩][j] }) :=
  getNodes_positional_pairing
    ["kind-worker", "kind-control-plane", "kind-worker2"]
    [⟨"control-plane", "cp"⟩, ⟨"worker", "w1"⟩, ⟨"worker", "w2"⟩]
    ["kind-control-plane"] ["kind-worker", "kind-worker2"]
    [⟨"control-plane", "cp"⟩] [⟨"worker", "w1"⟩, ⟨"worker", "w2"⟩]
    rfl rfl rfl rfl

/-- C1 counterexample.  A supplied config that differs from the stored
config only in its name field is not rejected: the name is normalized to
the identity before the comparison, after which the two are equal, so the
handle construction succeeds instead of failing with the conflict
error. -/
theorem newCluster_name_only_diff_succeeds :
    ((⟨"bar", [⟨"control-plane", ""⟩], "x"⟩ : KindCluster) ≠
      ⟨"foo", [⟨"control-plane", ""⟩], "x"⟩) ∧
    NewCluster ["foo"] storeC1 "foo" (some ⟨"bar", [⟨"control-plane", ""⟩], "x"⟩) =
      (.ok ⟨"foo", ⟨"foo", [⟨"control-plane", ""⟩], "x"⟩⟩, storeC1) :=
  ⟨by decide, rfl⟩

/-- C1 (amended).  For an existing cluster identity with a stored config,
constructing a handle with a supplied config whose name-normalized form
(the name field forced to the identity) is structurally different from the
decoded stored config always fails with the config-conflict error, and
the store is left unchanged — the stored configuration is never
overwritten or replaced. -/
theorem newCluster_conflict_on_normalized_diff
    (existing : List String) (store : Store) (name : String)
    (c : KindCluster) (stored : ConfigBytes)
    (hname : name ≠ "")
    (hexists : name ∈ existing)
    (hread : store.read name = some stored)
    (hdiff : yamlUnmarshalCluster stored ≠ { c with name := name }) :
    NewCluster existing store name (some c) =
      (.error (.wrap "setting config" (.msg "cannot pass new config to existing cluster")),
        store) := by
  simp [NewCluster, setConfig, normalizeSupplied, hname, hexists, hread, hdiff]

/-- Witness for C1's amended theorem: supplied and stored configs differ
in their node lists, so construction fails and the store is untouched. -/
theorem newCluster_conflict_witness :
    NewCluster ["n"] ⟨[("n", ⟨⟨"n", [], ""⟩, 0⟩)]⟩ "n"
        (some ⟨"n", [⟨"worker", ""⟩], ""⟩) =
      (.error (.wrap "setting config" (.msg "cannot pass new config to existing cluster")),
        ⟨[("n", ⟨⟨"n", [], ""⟩, 0⟩)]⟩) :=
  newCluster_conflict_on_normalized_diff ["n"] ⟨[("n", ⟨⟨"n", [], ""⟩, 0⟩)]⟩ "n"
    ⟨"n", [⟨"worker", ""⟩], ""⟩ ⟨⟨"n", [], ""⟩, 0⟩
    (by decide) (by decide) rfl (by decide)

/-- C3.  For every configuration c, constructing a handle for a
non-existing cluster identity with c supplied succeeds, adopts c, and the
effective configuration's name field equals the requested identity
regardless of c's original name field; no store access is involved and
the store is unchanged. -/
theorem newCluster_fresh_adopts_config
    (existing : List String) (store : Store) (name : String) (c : KindCluster)
    (hname : name ≠ "") (hnew : name ∉ existing) :
    NewCluster existing store name (some c) =
      (.ok { Name := name, config := { c with name := name } }, store) := by
  simp [NewCluster, setConfig, normalizeSupplied, hname, hnew]

/-- Witness for C3: the supplied config's own name field "orig" is
replaced by the requested identity "clu". -/
theorem newCluster_fresh_adopts_config_witness :
    NewCluster ["other"] ⟨[]⟩ "clu" (some ⟨"orig", [⟨"worker", "w"⟩], "e"⟩) =
      (.ok ⟨"clu", ⟨"clu", [⟨"worker", "w"⟩], "e"⟩⟩, ⟨[]⟩) :=
  newCluster_fresh_adopts_config ["other"] ⟨[]⟩ "clu" ⟨"orig", [⟨"worker", "w"⟩], "e"⟩
    (by decide) (by decide)

/-- C7.  For an existing cluster identity whose stored record decodes to
exactly the supplied configuration (the stored name being the identity,
the invariant the store is written under), handle construction succeeds
as a no-op reconciliation keeping the caller's configuration and leaving
the store as-is; the result is the same for every serialized
representation rep of the stored document, because the comparison is a
structural comparison of the decoded documents, not a byte comparison. -/
theorem newCluster_noop_reconciliation
    (existing : List String) (store : Store) (name : String) (c : KindCluster)
    (rep : Nat)
    (hname : name ≠ "")
    (hexists : name ∈ existing)
    (hread : store.read name = some ⟨c, rep⟩)
    (hcname : c.name = name) :
    NewCluster existing store name (some c) =
      (.ok { Name := name, config := c }, store) := by
  have hnorm : ({ c with name := name } : KindCluster) = c := by
    cases c
    simp only at hcname
    rw [hcname]
  simp [NewCluster, setConfig, normalizeSupplied, hname, hexists, hread, hnorm,
    yamlUnmarshalCluster]

/-- Witness for C7 with a non-canonical stored representation (rep 7):
still a successful no-op reconciliation. -/
theorem newCluster_noop_reconciliation_witness :
    NewCluster ["n"] ⟨[("n", ⟨⟨"n", [⟨"worker", "z"⟩], "q"⟩, 7⟩)]⟩ "n"
        (some ⟨"n", [⟨"worker", "z"⟩], "q"⟩) =
      (.ok ⟨"n", ⟨"n", [⟨"worker", "z"⟩], "q"⟩⟩,
        ⟨[("n", ⟨⟨"n", [⟨"worker", "z"⟩], "q"⟩, 7⟩)]⟩) :=
  newCluster_noop_reconciliation ["n"] ⟨[("n", ⟨⟨"n", [⟨"worker", "z"⟩], "q"⟩, 7⟩)]⟩
    "n" ⟨"n", [⟨"worker", "z"⟩], "q"⟩ 7 (by decide) (by decide) rfl rfl

/-- C8.  Cluster creation records the configuration strictly after the
provisioning command succeeds.  First conjunct: if provisioning fails,
Create returns the wrapped provisioning error and the store is unchanged —
no configuration record is written, whatever the store write would have
done.  Second conjunct: when provisioning and the store write succeed,
the effective configuration is recorded under the cluster's name. -/
theorem create_records_config_only_after_provision
    (c : Cluster) (store : Store) (env : AddConfigEnv) (e : GoErr) :
    (Cluster.Create c (.error e) env store =
      (.error (.wrap "executing command" e), store)) ∧
    (Cluster.Create c (.ok ()) ⟨none, none, none⟩ store =
      (.ok (), store.write c.Name (yamlMarshalCluster c.config))) :=
  ⟨rfl, rfl⟩

/-- C9 (code bug).  When the ConfigMap create still fails after the
bounded optimistic-conflict retries, the error returned wraps the outer
err variable — which is nil at that point because the retry closure
shadowed it — instead of retryErr: the result is GoErr.wrapNil, which
adds the attempted-operation context but drops the underlying store
failure ("forbidden" here) entirely, and the store is unchanged. -/
theorem addConfig_write_failure_drops_cause :
    addConfigBytesToExistingCluster ⟨none, none, some (.msg "forbidden")⟩ "foo"
        (yamlMarshalCluster ⟨"foo", [], ""⟩) ⟨[]⟩ =
      (.error (.wrapNil "writing configmap"), ⟨[]⟩) := rfl

/-- C10.  Reading the stored record of a cluster whose ConfigMap exists
but lacks the config key returns the empty bytes without an error: a Go
map lookup on a missing key yields the zero value, so reconciliation
proceeds with an empty stored configuration rather than failing. -/
theorem getConfigBytes_missing_config_key
    (data : List (String × String)) (h : data.lookup "config" = none) :
    getConfigBytesFromExistingCluster none none (.ok data) = .ok "" := by
  simp [getConfigBytesFromExistingCluster, h]

/-- Witness for C10: a ConfigMap with only an unrelated key yields empty
config bytes and no error. -/
theorem getConfigBytes_missing_config_key_witness :
    getConfigBytesFromExistingCluster none none (.ok [("other", "v")]) = .ok "" :=
  getConfigBytes_missing_config_key [("other", "v")] rfl
